import Mathlib

/-!
Shallow embedding of the fact-store / rule-engine core of the repository
(`src/main.rs`): the `FactStore` resource with its four typed fact maps and
four changed-key sets, the write and read operations, the drain used by
`fact_update_event_broadcaster`, and the `Rule` / `Condition` evaluator.

Modelling decisions:
- Rust `HashMap<String, V>` becomes a function `String → Option V`;
  `HashSet<String>` becomes `Finset String`.
- Rust `i32` values are embedded as `Int`; the `current + value` /
  `current - value` arithmetic in `add_to_int` / `subtract_from_int` is
  32-bit two's-complement, embedded by `wrap32` (wrapping semantics).
- `&mut self` methods become `FactStore → FactStore` state passing.
-/

namespace Rokkets

/-- 32-bit two's-complement wrap of an integer, the semantics of `i32`
addition and subtraction overflow in `add_to_int` / `subtract_from_int`. -/
def wrap32 (n : Int) : Int :=
  (n + 2 ^ 31) % 2 ^ 32 - 2 ^ 31

/-- The `Fact` enum of the source (`pub enum Fact`): note the int payload is
`i32` in the source, embedded as `Int` restricted to 32-bit values. -/
inductive Fact where
  | Int : Int → Fact
  | String : String → Fact
  | Bool : Bool → Fact
  | StringList : Finset String → Fact
deriving DecidableEq

/-- The `FactStore` resource: four typed fact maps and the four parallel
changed-key sets (`struct FactStore`, lines 430-440 of `src/main.rs`). -/
@[ext]
structure FactStore where
  int_facts : String → Option Int
  string_facts : String → Option String
  bool_facts : String → Option Bool
  list_facts : String → Option (Finset String)
  changed_int_facts : Finset String
  changed_string_facts : Finset String
  changed_bool_facts : Finset String
  changed_list_facts : Finset String

/-- `FactStore::new()`: all maps empty, all changed sets empty. -/
def FactStore.new : FactStore :=
  { int_facts := fun _ => none
    string_facts := fun _ => none
    bool_facts := fun _ => none
    list_facts := fun _ => none
    changed_int_facts := ∅
    changed_string_facts := ∅
    changed_bool_facts := ∅
    changed_list_facts := ∅ }

/-- `FactStore::get_int`. -/
def FactStore.get_int (s : FactStore) (key : String) : Option Int :=
  s.int_facts key

/-- `FactStore::get_string`. -/
def FactStore.get_string (s : FactStore) (key : String) : Option String :=
  s.string_facts key

/-- `FactStore::get_bool`. -/
def FactStore.get_bool (s : FactStore) (key : String) : Option Bool :=
  s.bool_facts key

/-- `FactStore::get_list`. -/
def FactStore.get_list (s : FactStore) (key : String) : Option (Finset String) :=
  s.list_facts key

/-- `FactStore::store_int`: compares the new value against the current one
(defaulting to 0 when the key is absent); only on a difference does it insert
the value and mark the key changed.  In particular writing `0` to an absent
key does nothing at all. -/
def FactStore.store_int (s : FactStore) (key : String) (value : Int) : FactStore :=
  if (s.get_int key).getD 0 ≠ value then
    { s with
      int_facts := fun k => if k = key then some value else s.int_facts k
      changed_int_facts := insert key s.changed_int_facts }
  else s

/-- `FactStore::add_to_int`: reads the current value (default 0), adds the
delta with `i32` arithmetic, and delegates to `store_int`. -/
def FactStore.add_to_int (s : FactStore) (key : String) (value : Int) : FactStore :=
  s.store_int key (wrap32 ((s.get_int key).getD 0 + value))

/-- `FactStore::subtract_from_int`: reads the current value (default 0),
subtracts the delta with `i32` arithmetic, and delegates to `store_int`. -/
def FactStore.subtract_from_int (s : FactStore) (key : String) (value : Int) : FactStore :=
  s.store_int key (wrap32 ((s.get_int key).getD 0 - value))

/-- `FactStore::store_string`, embedded exactly as the source has it
(lines 477-483): when the new value differs from the current one (defaulting
to `""` on absence) it inserts the key into `changed_string_facts` twice and
never writes the value into `string_facts`. -/
def FactStore.store_string (s : FactStore) (key : String) (value : String) : FactStore :=
  if (s.get_string key).getD "" ≠ value then
    { s with
      changed_string_facts := insert key (insert key s.changed_string_facts) }
  else s

/-- `FactStore::store_bool`: same pattern as `store_int`, default `false`. -/
def FactStore.store_bool (s : FactStore) (key : String) (value : Bool) : FactStore :=
  if (s.get_bool key).getD false ≠ value then
    { s with
      bool_facts := fun k => if k = key then some value else s.bool_facts k
      changed_bool_facts := insert key s.changed_bool_facts }
  else s

/-- `FactStore::add_to_string_list`: inserts the value into the set at `key`
(creating the set when absent); marks the key changed exactly when
`HashSet::insert` returned true, i.e. when the value was not already there. -/
def FactStore.add_to_string_list (s : FactStore) (key : String) (value : String) : FactStore :=
  match s.list_facts key with
  | some list =>
    { s with
      list_facts := fun k => if k = key then some (insert value list) else s.list_facts k
      changed_list_facts :=
        if value ∈ list then s.changed_list_facts else insert key s.changed_list_facts }
  | none =>
    { s with
      list_facts := fun k => if k = key then some {value} else s.list_facts k
      changed_list_facts := insert key s.changed_list_facts }

/-- `FactStore::remove_from_string_list`: when the set at `key` exists, erases
the value and marks the key changed exactly when `HashSet::remove` returned
true; an absent key is a no-op. -/
def FactStore.remove_from_string_list (s : FactStore) (key : String) (value : String) : FactStore :=
  match s.list_facts key with
  | some list =>
    { s with
      list_facts := fun k => if k = key then some (list.erase value) else s.list_facts k
      changed_list_facts :=
        if value ∈ list then insert key s.changed_list_facts else s.changed_list_facts }
  | none => s

/-- The four fact kinds (the four parallel namespaces of the store). -/
inductive FactKind where
  | ints
  | strs
  | bools
  | lists
deriving DecidableEq

/-- The changed-key set of one kind. -/
def FactStore.changed_of (s : FactStore) : FactKind → Finset String
  | .ints => s.changed_int_facts
  | .strs => s.changed_string_facts
  | .bools => s.changed_bool_facts
  | .lists => s.changed_list_facts

/-- `drain_changed(kind)`: the `HashSet::drain` calls performed per kind by
`fact_update_event_broadcaster` (lines 28-59): returns the keys of that
kind's changed set and clears that set, touching nothing else. -/
def FactStore.drain_changed (s : FactStore) : FactKind → Finset String × FactStore
  | .ints => (s.changed_int_facts, { s with changed_int_facts := ∅ })
  | .strs => (s.changed_string_facts, { s with changed_string_facts := ∅ })
  | .bools => (s.changed_bool_facts, { s with changed_bool_facts := ∅ })
  | .lists => (s.changed_list_facts, { s with changed_list_facts := ∅ })

/-- The condition `fact_update_event_broadcaster` relies on: every drained key
must have a stored value of the matching kind, or one of its `unwrap` calls
(lines 35, 42, 49, 56) panics. -/
def FactStore.drain_lookups_ok (s : FactStore) : Prop :=
  (∀ k ∈ s.changed_int_facts, (s.int_facts k).isSome) ∧
  (∀ k ∈ s.changed_string_facts, (s.string_facts k).isSome) ∧
  (∀ k ∈ s.changed_bool_facts, (s.bool_facts k).isSome) ∧
  (∀ k ∈ s.changed_list_facts, (s.list_facts k).isSome)

instance (s : FactStore) : Decidable s.drain_lookups_ok := by
  unfold FactStore.drain_lookups_ok
  infer_instance

/-- The `Condition` enum of the rule engine (the source's `Invert` holds its
inner condition behind an `Arc`; here it is a plain recursive child). -/
inductive Condition where
  | StringEquals : String → String → Condition
  | IntEquals : String → Int → Condition
  | IntLargerThan : String → Int → Condition
  | IntLessThan : String → Int → Condition
  | BoolEquals : String → Bool → Condition
  | ListContains : String → String → Condition
  | Invert : Condition → Condition

/-- A `Rule`: an ordered list of conditions, conjoined. -/
structure Rule where
  conditions : List Condition

/-- `Rule::evaluate_condition`: each lookup uses `map_or(false, ...)`, so an
absent fact makes the condition false; `Invert` negates recursively. -/
def Rule.evaluate_condition (c : Condition) (s : FactStore) : Bool :=
  match c with
  | .StringEquals key value =>
    match s.get_string key with
    | some fact => decide (fact = value)
    | none => false
  | .BoolEquals key value =>
    match s.get_bool key with
    | some fact => decide (fact = value)
    | none => false
  | .ListContains key value =>
    match s.get_list key with
    | some fact => decide (value ∈ fact)
    | none => false
  | .IntEquals key value =>
    match s.get_int key with
    | some fact => decide (fact = value)
    | none => false
  | .IntLargerThan key value =>
    match s.get_int key with
    | some fact => decide (fact > value)
    | none => false
  | .IntLessThan key value =>
    match s.get_int key with
    | some fact => decide (fact < value)
    | none => false
  | .Invert inner => !(Rule.evaluate_condition inner s)

/-- `Rule::evaluate`: true iff all conditions evaluate true. -/
def Rule.evaluate (r : Rule) (s : FactStore) : Bool :=
  r.conditions.all (fun c => Rule.evaluate_condition c s)

/-- Claim C1: evaluation of the code at the failing input.  After
`store_string "k" "v"` on a fresh store the value was never written —
`get_string "k"` returns `none`, not `some "v"` — even though `"k"` was
recorded in the string changed-set, so `store_string` does not follow the
`store_int` contract the spec states. -/
theorem store_string_never_stores_value :
    (FactStore.new.store_string "k" "v").get_string "k" = none ∧
    (FactStore.new.store_string "k" "v").get_string "k" ≠ some "v" ∧
    "k" ∈ (FactStore.new.store_string "k" "v").changed_string_facts := by
  decide

/-- Claim C2: evaluation of the code at the failing input.  In the reachable
state `store_string "k" "v"` from `FactStore::new`, the key `"k"` is in the
string changed-set while `string_facts` holds no value for it, so the
drain-time lookup condition of `fact_update_event_broadcaster` fails (its
`unwrap` would panic), refuting the claimed invariant. -/
theorem changed_key_without_stored_value :
    "k" ∈ (FactStore.new.store_string "k" "v").changed_string_facts ∧
    (FactStore.new.store_string "k" "v").string_facts "k" = none ∧
    ¬ (FactStore.new.store_string "k" "v").drain_lookups_ok := by
  decide

/-- Claim C3, counterexample: `store_int "x" 0` on a never-written key leaves
`get_int "x" = none`, not `some 0` as the claim states (the default-equal
write is a complete no-op; no map entry is created). -/
theorem int_default_write_ce :
    (FactStore.new.store_int "x" 0).get_int "x" ≠ some 0 ∧
    (FactStore.new.store_int "x" 0).get_int "x" = none := by
  decide

/-- Claim C3, amended: for a key `"x"` never written in the int namespace
(and hence not in the int changed-set), `store_int "x" 0` results in
`get_int "x" = none` (no entry is created), and `"x"` is not in the int
changed-set nor in a subsequent drain of the int changed-set. -/
theorem int_default_write_masking (s : FactStore)
    (h1 : s.int_facts "x" = none) (h2 : "x" ∉ s.changed_int_facts) :
    (s.store_int "x" 0).get_int "x" = none ∧
    "x" ∉ (s.store_int "x" 0).changed_int_facts ∧
    "x" ∉ ((s.store_int "x" 0).drain_changed FactKind.ints).1 := by
  have hs : s.store_int "x" 0 = s := by
    simp [FactStore.store_int, FactStore.get_int, h1]
  rw [hs]
  exact ⟨h1, h2, h2⟩

/-- Witness for `int_default_write_masking` at the fresh store. -/
theorem int_default_write_masking_witness :
    FactStore.new.int_facts "x" = none ∧ "x" ∉ FactStore.new.changed_int_facts ∧
    (FactStore.new.store_int "x" 0).get_int "x" = none :=
  ⟨rfl, by decide, (int_default_write_masking FactStore.new rfl (by decide)).1⟩

/-- Claim C10: when the written int value equals the current one (or equals 0
while the key is absent), `store_int` leaves the whole store unchanged — no
map entry is created or modified and no changed-set is touched; in particular
a default write to an absent key still reads back as `none`. -/
theorem store_int_noop_frame (s : FactStore) (k : String) (v : Int)
    (h : s.int_facts k = some v ∨ (s.int_facts k = none ∧ v = 0)) :
    s.store_int k v = s ∧
    (s.int_facts k = none → (s.store_int k v).get_int k = none) := by
  have hc : (s.get_int k).getD 0 = v := by
    rcases h with h | ⟨h, rfl⟩ <;> simp [FactStore.get_int, h]
  have hs : s.store_int k v = s := by
    simp [FactStore.store_int, hc]
  exact ⟨hs, fun hn => by rw [hs]; exact hn⟩

/-- Witness for `store_int_noop_frame`: rewriting the stored value 7 with 7
changes nothing. -/
theorem store_int_noop_frame_witness :
    (FactStore.new.store_int "y" 7).int_facts "y" = some 7 ∧
    (FactStore.new.store_int "y" 7).store_int "y" 7 = FactStore.new.store_int "y" 7 :=
  ⟨by decide,
    (store_int_noop_frame (FactStore.new.store_int "y" 7) "y" 7 (Or.inl (by decide))).1⟩

/-- Claim C4: from a freshly drained (new) store, `store_int "button_pressed" 0`
followed by three `add_to_int "button_pressed" 1` calls yields
`get_int "button_pressed" = some 3`, and the pre-drain int changed-set is
exactly the singleton `{"button_pressed"}` — set semantics, one occurrence
regardless of how many times the value changed. -/
theorem button_pressed_scenario :
    ((((FactStore.new.store_int "button_pressed" 0).add_to_int "button_pressed" 1).add_to_int
        "button_pressed" 1).add_to_int "button_pressed" 1).get_int "button_pressed" =
      some 3 ∧
    ((((FactStore.new.store_int "button_pressed" 0).add_to_int "button_pressed" 1).add_to_int
        "button_pressed" 1).add_to_int "button_pressed" 1).changed_int_facts =
      {"button_pressed"} := by
  decide

/-- Claim C5, counterexample: int facts are `i32`, not `i64` — adding 1 to the
stored value 2147483647 wraps to -2147483648 instead of the exact integer sum
2147483648. -/
theorem add_to_int_overflow_ce :
    ((FactStore.new.store_int "k" 2147483647).add_to_int "k" 1).get_int "k" =
      some (-2147483648) ∧
    (-2147483648 : Int) ≠ 2147483647 + 1 := by
  decide

/-- 32-bit wrapping is the identity on values in the `i32` range. -/
theorem wrap32_eq_self {n : Int} (h1 : -2 ^ 31 ≤ n) (h2 : n < 2 ^ 31) :
    wrap32 n = n := by
  have he : (2 : Int) ^ 32 = 2 * 2 ^ 31 := by norm_num
  have h3 : (0 : Int) ≤ n + 2 ^ 31 := by linarith
  have h4 : n + 2 ^ 31 < 2 ^ 32 := by linarith
  unfold wrap32
  rw [Int.emod_eq_of_lt h3 h4]
  ring

/-- Claim C5, amended: int facts are 32-bit (`i32`); `add_to_int` and
`subtract_from_int` read the current value, compute the sum / difference with
32-bit wrapping arithmetic and delegate to `store_int`; whenever the key is
present and the mathematical result fits in `i32`, the read-back value is the
exact integer sum / difference. -/
theorem int_arith_exact_in_range (s : FactStore) (k : String) (c d : Int)
    (hc : s.int_facts k = some c) :
    (-2 ^ 31 ≤ c + d → c + d < 2 ^ 31 →
      s.add_to_int k d = s.store_int k (c + d) ∧
      (s.add_to_int k d).get_int k = some (c + d)) ∧
    (-2 ^ 31 ≤ c - d → c - d < 2 ^ 31 →
      s.subtract_from_int k d = s.store_int k (c - d) ∧
      (s.subtract_from_int k d).get_int k = some (c - d)) := by
  have hg : s.get_int k = some c := hc
  have hstore : ∀ v : Int, (s.store_int k v).get_int k = some v := by
    intro v
    by_cases hv : (s.get_int k).getD 0 ≠ v
    · have hv' : ¬(s.int_facts k).getD 0 = v := hv
      simp [FactStore.store_int, FactStore.get_int, hv']
    · push_neg at hv
      rw [hg] at hv
      simp only [Option.getD_some] at hv
      simp [FactStore.store_int, FactStore.get_int, hg, hv, hc]
  constructor
  · intro h1 h2
    have hadd : s.add_to_int k d = s.store_int k (c + d) := by
      unfold FactStore.add_to_int
      rw [hg]
      simp only [Option.getD_some]
      rw [wrap32_eq_self h1 h2]
    exact ⟨hadd, by rw [hadd]; exact hstore (c + d)⟩
  · intro h3 h4
    have hsub : s.subtract_from_int k d = s.store_int k (c - d) := by
      unfold FactStore.subtract_from_int
      rw [hg]
      simp only [Option.getD_some]
      rw [wrap32_eq_self h3 h4]
    exact ⟨hsub, by rw [hsub]; exact hstore (c - d)⟩

/-- Witness for `int_arith_exact_in_range`: with -2 stored, adding 2^31 - 1
reads back the exact sum 2147483645 — a case where the sum fits in `i32`
although the difference does not. -/
theorem int_arith_exact_in_range_witness :
    (FactStore.new.store_int "w" (-2)).int_facts "w" = some (-2) ∧
    ((FactStore.new.store_int "w" (-2)).add_to_int "w" 2147483647).get_int "w" =
      some 2147483645 :=
  ⟨by decide, by
    have h := ((int_arith_exact_in_range (FactStore.new.store_int "w" (-2)) "w" (-2)
      2147483647 (by decide)).1 (by decide) (by decide)).2
    norm_num at h
    exact h⟩

/-- Claim C6: every equality, comparison or membership condition over a key
absent in the matching kind namespace evaluates to `false` (never an error),
`Invert` is boolean negation of its inner condition, and consequently for the
untouched key `"z"`, `IntEquals "z" 5` is `false` and its inversion `true`. -/
theorem condition_absent_false (s : FactStore) (k : String) :
    (s.string_facts k = none →
      ∀ v, Rule.evaluate_condition (.StringEquals k v) s = false) ∧
    (s.int_facts k = none → ∀ v : Int,
      Rule.evaluate_condition (.IntEquals k v) s = false ∧
      Rule.evaluate_condition (.IntLargerThan k v) s = false ∧
      Rule.evaluate_condition (.IntLessThan k v) s = false) ∧
    (s.bool_facts k = none →
      ∀ v, Rule.evaluate_condition (.BoolEquals k v) s = false) ∧
    (s.list_facts k = none →
      ∀ v, Rule.evaluate_condition (.ListContains k v) s = false) ∧
    (∀ c, Rule.evaluate_condition (.Invert c) s = !Rule.evaluate_condition c s) ∧
    (Rule.evaluate_condition (.IntEquals "z" 5) FactStore.new = false ∧
      Rule.evaluate_condition (.Invert (.IntEquals "z" 5)) FactStore.new = true) := by
  refine ⟨?_, ?_, ?_, ?_, fun c => rfl, by decide⟩
  · intro h v
    simp [Rule.evaluate_condition, FactStore.get_string, h]
  · intro h v
    refine ⟨?_, ?_, ?_⟩ <;> simp [Rule.evaluate_condition, FactStore.get_int, h]
  · intro h v
    simp [Rule.evaluate_condition, FactStore.get_bool, h]
  · intro h v
    simp [Rule.evaluate_condition, FactStore.get_list, h]

/-- Witness for `condition_absent_false` at the untouched key `"z"`. -/
theorem condition_absent_false_witness :
    FactStore.new.int_facts "z" = none ∧
    Rule.evaluate_condition (.IntEquals "z" 5) FactStore.new = false :=
  ⟨rfl, ((condition_absent_false FactStore.new "z").2.1 rfl 5).1⟩

/-- Claim C7: `add_to_string_list` inserts the value (creating the set when
absent) and marks the key changed iff the value was not already a member — a
duplicate insert leaves the whole store untouched and the set holds one copy;
`remove_from_string_list` erases the value, marks the key changed iff the
removal occurred, and is a no-op on an absent key. -/
theorem string_list_set_semantics (s : FactStore) (k v : String) :
    (s.add_to_string_list k v).get_list k =
      some (insert v ((s.list_facts k).getD ∅)) ∧
    (s.add_to_string_list k v).changed_list_facts =
      (if v ∈ (s.list_facts k).getD ∅ then s.changed_list_facts
        else insert k s.changed_list_facts) ∧
    (∀ l, s.list_facts k = some l → v ∈ l → s.add_to_string_list k v = s) ∧
    (s.list_facts k = none → s.remove_from_string_list k v = s) ∧
    (∀ l, s.list_facts k = some l →
      (s.remove_from_string_list k v).get_list k = some (l.erase v) ∧
      (s.remove_from_string_list k v).changed_list_facts =
        (if v ∈ l then insert k s.changed_list_facts else s.changed_list_facts)) := by
  refine ⟨?_, ?_, ?_, ?_, ?_⟩
  · cases hl : s.list_facts k <;>
      simp [FactStore.add_to_string_list, FactStore.get_list, hl]
  · cases hl : s.list_facts k <;>
      simp [FactStore.add_to_string_list, hl]
  · intro l hl hv
    have hil : insert v l = l := Finset.insert_eq_self.mpr hv
    simp only [FactStore.add_to_string_list, hl, if_pos hv, hil]
    apply FactStore.ext <;> try rfl
    funext k2
    by_cases hk : k2 = k
    · subst hk
      simp [hl]
    · simp [hk]
  · intro hl
    simp [FactStore.remove_from_string_list, hl]
  · intro l hl
    constructor <;> simp [FactStore.remove_from_string_list, FactStore.get_list, hl]

/-- Witness for `string_list_set_semantics`: a duplicate insert of `"a"` at
`"h"` is a complete no-op. -/
theorem string_list_set_semantics_witness :
    (FactStore.new.add_to_string_list "h" "a").list_facts "h" = some {"a"} ∧
    "a" ∈ ({"a"} : Finset String) ∧
    (FactStore.new.add_to_string_list "h" "a").add_to_string_list "h" "a" =
      FactStore.new.add_to_string_list "h" "a" :=
  ⟨by decide, by decide,
    (string_list_set_semantics (FactStore.new.add_to_string_list "h" "a") "h" "a").2.2.1
      {"a"} (by decide) (by decide)⟩

/-- `store_int` marks the key changed whenever the value differs from the
current one (default 0 on absence). -/
theorem store_int_marks_changed (s : FactStore) (k : String) (v : Int)
    (h : (s.int_facts k).getD 0 ≠ v) :
    k ∈ (s.store_int k v).changed_int_facts := by
  simp [FactStore.store_int, FactStore.get_int, h]

/-- `store_string` marks the key changed whenever the value differs from the
current one (default `""` on absence). -/
theorem store_string_marks_changed (s : FactStore) (k v : String)
    (h : (s.string_facts k).getD "" ≠ v) :
    k ∈ (s.store_string k v).changed_string_facts := by
  simp [FactStore.store_string, FactStore.get_string, h]

/-- `store_bool` marks the key changed whenever the value differs from the
current one (default `false` on absence). -/
theorem store_bool_marks_changed (s : FactStore) (k : String) (v : Bool)
    (h : (s.bool_facts k).getD false ≠ v) :
    k ∈ (s.store_bool k v).changed_bool_facts := by
  simp [FactStore.store_bool, FactStore.get_bool, h]

/-- `add_to_string_list` marks the key changed whenever the value was not
already in the set at the key (the empty set on absence). -/
theorem add_to_string_list_marks_changed (s : FactStore) (k v : String)
    (h : v ∉ (s.list_facts k).getD ∅) :
    k ∈ (s.add_to_string_list k v).changed_list_facts := by
  cases hl : s.list_facts k with
  | none => simp [FactStore.add_to_string_list, hl]
  | some l =>
    rw [hl] at h
    simp only [Option.getD_some] at h
    simp [FactStore.add_to_string_list, hl, h]

/-- Claim C8: draining one kind returns exactly that kind's changed-key set
and clears it, leaves the other three kinds' changed sets and all four fact
maps untouched, an immediate second drain of the same kind returns the empty
set, and a subsequent value-changing write of any kind repopulates that
kind's changed set. -/
theorem drain_changed_spec (κ κ2 : FactKind) (hne : κ2 ≠ κ) (s : FactStore) :
    (s.drain_changed κ).1 = s.changed_of κ ∧
    ((s.drain_changed κ).2).changed_of κ = ∅ ∧
    ((s.drain_changed κ).2).changed_of κ2 = s.changed_of κ2 ∧
    ((s.drain_changed κ).2).int_facts = s.int_facts ∧
    ((s.drain_changed κ).2).string_facts = s.string_facts ∧
    ((s.drain_changed κ).2).bool_facts = s.bool_facts ∧
    ((s.drain_changed κ).2).list_facts = s.list_facts ∧
    (((s.drain_changed κ).2).drain_changed κ).1 = ∅ ∧
    (∀ k v, (((s.drain_changed κ).2).int_facts k).getD 0 ≠ v →
      k ∈ (((s.drain_changed κ).2).store_int k v).changed_int_facts) ∧
    (∀ k v, (((s.drain_changed κ).2).string_facts k).getD "" ≠ v →
      k ∈ (((s.drain_changed κ).2).store_string k v).changed_string_facts) ∧
    (∀ k v, (((s.drain_changed κ).2).bool_facts k).getD false ≠ v →
      k ∈ (((s.drain_changed κ).2).store_bool k v).changed_bool_facts) ∧
    (∀ k v, v ∉ (((s.drain_changed κ).2).list_facts k).getD ∅ →
      k ∈ (((s.drain_changed κ).2).add_to_string_list k v).changed_list_facts) := by
  refine ⟨?_, ?_, ?_, ?_, ?_, ?_, ?_, ?_,
    fun k v h => store_int_marks_changed _ k v h,
    fun k v h => store_string_marks_changed _ k v h,
    fun k v h => store_bool_marks_changed _ k v h,
    fun k v h => add_to_string_list_marks_changed _ k v h⟩
  · cases κ <;> rfl
  · cases κ <;> rfl
  · cases κ <;> cases κ2 <;> first | exact absurd rfl hne | rfl
  · cases κ <;> rfl
  · cases κ <;> rfl
  · cases κ <;> rfl
  · cases κ <;> rfl
  · cases κ <;> rfl

/-- Witness for `drain_changed_spec` at the int kind after one write. -/
theorem drain_changed_spec_witness :
    FactKind.strs ≠ FactKind.ints ∧
    ((FactStore.new.store_int "a" 1).drain_changed FactKind.ints).1 =
      (FactStore.new.store_int "a" 1).changed_of FactKind.ints ∧
    ((((FactStore.new.store_int "a" 1).drain_changed FactKind.ints).2).drain_changed
      FactKind.ints).1 = ∅ :=
  ⟨by decide,
    (drain_changed_spec FactKind.ints FactKind.strs (by decide)
      (FactStore.new.store_int "a" 1)).1,
    (drain_changed_spec FactKind.ints FactKind.strs (by decide)
      (FactStore.new.store_int "a" 1)).2.2.2.2.2.2.2.1⟩

/-- Claim C9: `Rule.evaluate` is true iff every condition in the rule's list
evaluates to true, and a rule with an empty condition list evaluates to true;
evaluation is a pure function of the rule and the store (the embedding takes
the store by value and returns only a boolean, so it cannot mutate it). -/
theorem rule_evaluate_conjunction (r : Rule) (s : FactStore) :
    (r.evaluate s = true ↔ ∀ c ∈ r.conditions, Rule.evaluate_condition c s = true) ∧
    (Rule.mk []).evaluate s = true := by
  constructor
  · simp [Rule.evaluate, List.all_eq_true]
  · rfl

end Rokkets
